import Mathlib

/-!
Shallow embedding of `src/data_acquisition.py` (repository
`lubandust/sp500_historic_data`), a sequential data-acquisition and
aggregation pipeline over pandas DataFrames.

Modelling conventions:
* Remote services (yfinance price/earnings queries, FRED series queries)
  are oracle parameters returning `Except String payload`; `Except.error e`
  models a raised exception `e` inside the `try` block, `Except.ok` models
  a successful response.  A Python function that can raise to its caller is
  embedded with result type `Except String _`; a total Lean result type
  models a function that never raises to its caller.
* DataFrames are lists of rows (positional index, so `reset_index(drop=True)`
  is implicit); a pandas `Series` of floats is a `List ℚ`.  Machine floats
  are modelled as rationals.
* `logging.error` calls are modelled by an extra `List String` component in
  each function's result carrying the formatted messages, in order.
* Dates are `Nat` (e.g. `yyyymmdd`); their order is all the code uses.
-/

namespace SP500

/-- A cell of a provider-supplied table column: a numeric value, or a
non-numeric token (which `astype(float)` rejects with a `ValueError`). -/
inductive CellVal where
  | num (q : ℚ)
  | nonNumeric (s : String)
deriving DecidableEq

/-- One row of the provider's price-history response for the requested
interval: the yfinance `history(start, end)` frame has a date index, price
columns (abstracted to `close`) and a `Dividends` column. -/
structure HistRow where
  date : Nat
  close : ℚ
  dividend : ℚ
deriving DecidableEq

/-- A row of the returned price table: a history row with the `Ticker`
column attached (`historical_data["Ticker"] = ticker`). -/
structure PriceRow where
  date : Nat
  close : ℚ
  dividend : ℚ
  ticker : String
deriving DecidableEq

/-- A row of the returned dividend table, columns `Date, Dividends, Ticker`
after the rename `dividends.columns = ["Date", "Dividends", "Ticker"]`. -/
structure DivRow where
  date : Nat
  amount : ℚ
  ticker : String
deriving DecidableEq

/-- One row of the provider's earnings-calendar response (before the
`Ticker` column is attached): date index plus the `Reported EPS` cell. -/
structure EarnRowP where
  date : Nat
  reportedEps : CellVal
deriving DecidableEq

/-- A row of an earnings DataFrame after `reset_index` and the `Ticker`
column assignment. -/
structure EarnRow where
  date : Nat
  reportedEps : CellVal
  ticker : String
deriving DecidableEq

/-- An earnings DataFrame.  `hasEpsCol = false` models a frame without a
`"Reported EPS"` column (indexing it raises `KeyError`); `quarterlyGrowth`
is the `"Quarterly Growth"` column when present (parallel to `rows`, `none`
entries are the `NaN`s produced by `pct_change`); `annualizedGrowthRate` is
the constant `"Annualized Growth Rate"` column when present. -/
structure EarningsDF where
  hasEpsCol : Bool
  rows : List EarnRow
  quarterlyGrowth : Option (List (Option ℚ))
  annualizedGrowthRate : Option ℚ
deriving DecidableEq

/-- Models `pd.DataFrame()`: the empty frame, no columns, no rows. -/
def emptyEarningsDF : EarningsDF := ⟨false, [], none, none⟩

/-- The remote price-history service: queried with (ticker, start, end),
it either raises or returns the rows of the requested closed interval. -/
abbrev HistOracle := String → Nat → Nat → Except String (List HistRow)

/-- The remote earnings-calendar service (`get_earnings_dates(limit=8)`),
queried per ticker; the row limit is enforced provider-side. -/
abbrev EarnOracle := String → Except String (List EarnRowP)

/-- The FRED service: queried with (series_id, start, end). -/
abbrev FredOracle := String → Nat → Nat → Except String (List (Nat × ℚ))

/-- Embeds `fetch_yahoo_finance_data(ticker, start_date, end_date)`.
The `try` block fetches `stock.history(start, end)`, reads
`stock.dividends` — which the yfinance client derives from the history
frame already fetched for the interval: the nonzero entries of its
`Dividends` column — attaches the `Ticker` column to both, and renames the
dividend columns.  On any exception it logs and returns two empty frames;
the total result type records that it never raises to its caller. -/
def fetch_yahoo_finance_data (hist : HistOracle) (ticker : String)
    (start_date end_date : Nat) : (List PriceRow × List DivRow) × List String :=
  match hist ticker start_date end_date with
  | Except.ok h =>
      let historical_data := h.map (fun r => PriceRow.mk r.date r.close r.dividend ticker)
      let dividends := (h.filter (fun r => decide (r.dividend ≠ 0))).map
        (fun r => DivRow.mk r.date r.dividend ticker)
      ((historical_data, dividends), [])
  | Except.error e =>
      (([], []), ["Error fetching data for " ++ ticker ++ ": " ++ e])

/-- Embeds `fetch_yahoo_earnings_data(ticker)`: fetches up to 8 earnings rows,
resets the index and attaches the `Ticker` column; on any exception it
logs and returns `pd.DataFrame()`. -/
def fetch_yahoo_earnings_data (earn : EarnOracle) (ticker : String) :
    EarningsDF × List String :=
  match earn ticker with
  | Except.ok ec =>
      (⟨true, ec.map (fun r => EarnRow.mk r.date r.reportedEps ticker), none, none⟩, [])
  | Except.error e =>
      (emptyEarningsDF, ["Error fetching earnings data for " ++ ticker ++ ": " ++ e])

/-- Embeds `fetch_fred_data(series_id, start_date, end_date)`: returns the fetched
series, or on any exception logs and returns `pd.Series()`. -/
def fetch_fred_data (fredO : FredOracle) (series_id : String)
    (start_date end_date : Nat) : List (Nat × ℚ) × List String :=
  match fredO series_id start_date end_date with
  | Except.ok s => (s, [])
  | Except.error e =>
      ([], ["Error fetching FRED data for series_id " ++ series_id ++ ": " ++ e])

/-- Models `pd.concat(tables)`: raises `ValueError("No objects to concatenate")`
on an empty list of objects, otherwise concatenates in order. -/
def pd_concat {α : Type} (tables : List (List α)) : Except String (List α) :=
  if tables.isEmpty then Except.error "No objects to concatenate"
  else Except.ok tables.flatten

/-- The sort key comparison used by `sort_values(by=["Date", "Ticker"])`:
date ascending, then ticker ascending. -/
def dateTickerLe (a b : Nat × String) : Bool :=
  decide (a.1 < b.1 ∨ (a.1 = b.1 ∧ a.2 ≤ b.2))

/-- Models `df.sort_values(by=["Date", "Ticker"]).reset_index(drop=True)`:
sort the rows by (date, ticker); the positional index is implicit. -/
def sort_values {α : Type} (key : α → Nat × String) (l : List α) : List α :=
  l.mergeSort (fun a b => dateTickerLe (key a) (key b))

/-- Embeds `fetch_and_merge_data(tickers, start_date, end_date)`.  The loop body
appends each non-empty per-ticker table, in ticker order, to the three
accumulator lists: rendered as map-then-filter, one map per accumulator —
the loop fetches once per ticker, and the adapters are pure functions of
their oracles, so the repeated applications denote that single fetch.
The per-ticker adapters also emit log messages.  Then each accumulator
is concatenated with
`pd.concat` — which raises if the accumulator is empty, an exception this
function does not catch (hence the `Except` result) — and sorted by
(Date, Ticker).  All frames reaching the earnings concatenation are
non-empty fetched frames, so the merged earnings frame has the
`Reported EPS` column and neither derived column. -/
def fetch_and_merge_data (hist : HistOracle) (earn : EarnOracle)
    (tickers : List String) (start_date end_date : Nat) :
    Except String (List PriceRow × List DivRow × EarningsDF) × List String :=
  let all_stock_data :=
    (tickers.map (fun t => ((fetch_yahoo_finance_data hist t start_date end_date).1).1)).filter
      (fun tb => !tb.isEmpty)
  let all_dividends_data :=
    (tickers.map (fun t => ((fetch_yahoo_finance_data hist t start_date end_date).1).2)).filter
      (fun tb => !tb.isEmpty)
  let all_earnings_data :=
    (tickers.map (fun t => (fetch_yahoo_earnings_data earn t).1.rows)).filter
      (fun tb => !tb.isEmpty)
  let logs :=
    (tickers.map (fun t => (fetch_yahoo_finance_data hist t start_date end_date).2
      ++ (fetch_yahoo_earnings_data earn t).2)).flatten
  match pd_concat all_stock_data, pd_concat all_dividends_data, pd_concat all_earnings_data with
  | Except.ok s, Except.ok d, Except.ok e =>
      (Except.ok (sort_values (fun r => (r.date, r.ticker)) s,
                  sort_values (fun r => (r.date, r.ticker)) d,
                  ⟨true, sort_values (fun r => (r.date, r.ticker)) e, none, none⟩), logs)
  | Except.error e, _, _ => (Except.error e, logs)
  | _, Except.error e, _ => (Except.error e, logs)
  | _, _, Except.error e => (Except.error e, logs)

/-- The input file `sp500_ticker_periods_tested.csv` as `pd.read_csv`
delivers it: `tickerCol` is the `"Ticker"` column, `none` when the column
is missing (indexing raises `KeyError`). -/
structure CsvFile where
  tickerCol : Option (List String)
deriving DecidableEq

/-- Embeds `get_tickers_list(input_file)`: reads the ticker column and returns at
most the first 5 entries in file order; on any exception (missing file,
missing column) it logs and returns the empty list. -/
def get_tickers_list (file : Except String CsvFile) : List String × List String :=
  match file with
  | Except.error e => ([], ["Error reading tickers list: " ++ e])
  | Except.ok f =>
    match f.tickerCol with
    | none => ([], ["Error reading tickers list: KeyError: Ticker"])
    | some tickers_list => (tickers_list.take 5, [])

/-- The hard-coded start date `"2023-08-01"` as `yyyymmdd`. -/
def START_DATE : Nat := 20230801

/-- Embeds `get_backtest_data()`: reads the tickers, calls `fetch_and_merge_data`
(whose `pd.concat` exception is not caught here and so propagates, modelled
by the `Except.error` branch), then fetches the macro series and writes
each non-empty table to its CSV file.  The result is the list of file
paths written (in write order), or the propagated error; an error result
means the run stopped before any file was written. -/
def get_backtest_data (csv : Except String CsvFile) (hist : HistOracle)
    (earn : EarnOracle) (fredO : FredOracle) (today : Nat) :
    Except String (List String) × List String :=
  let tl := get_tickers_list csv
  match fetch_and_merge_data hist earn tl.1 START_DATE today with
  | (Except.error e, logs1) => (Except.error e, tl.2 ++ logs1)
  | (Except.ok (stock_data, dividends_data, earnings_data), logs1) =>
      let fr := fetch_fred_data fredO "GS10" START_DATE today
      let files :=
        (if !stock_data.isEmpty then ["backtest_data/stock_data.csv"] else []) ++
        (if !dividends_data.isEmpty then ["backtest_data/dividends_data.csv"] else []) ++
        (if !earnings_data.rows.isEmpty then ["backtest_data/earnings_data.csv"] else []) ++
        (if !fr.1.isEmpty then ["backtest_data/macro_data.csv"] else [])
      (Except.ok files, tl.2 ++ logs1 ++ fr.2)

/-- Models `.astype(float)` on the `Reported EPS` column: numeric cells pass
through, a non-numeric cell raises `ValueError`. -/
def astype_float : List CellVal → Except String (List ℚ)
  | [] => Except.ok []
  | CellVal.num q :: rest =>
      match astype_float rest with
      | Except.ok qs => Except.ok (q :: qs)
      | Except.error e => Except.error e
  | CellVal.nonNumeric s :: _ =>
      Except.error ("could not convert string to float: " ++ s)

/-- Models `Series.pct_change()`: entry `i` is `x[i] / x[i-1] - 1`; the first
entry is `NaN` (modelled `none`). -/
def pct_change : List ℚ → List (Option ℚ)
  | [] => []
  | x :: xs => none :: List.zipWith (fun prev cur => some (cur / prev - 1)) (x :: xs) xs

/-- Models `np.mean` of a list of rationals. -/
def np_mean (l : List ℚ) : ℚ := l.sum / l.length

/-- Embeds `calculate_growth_rate(earnings_df)`.  The function mutates its
argument: it overwrites `"Reported EPS"` with the float-coerced column and
assigns a new `"Quarterly Growth"` column; the updated frame is returned
as the first component (explicit state passing), the Python return value
as the second.  When `astype` raises, the exception occurs while the
right-hand side is evaluated, so the frame is unchanged; the `except`
branch logs and returns `None` — never raising to the caller. -/
def calculate_growth_rate (earnings_df : EarningsDF) : EarningsDF × Option ℚ :=
  if earnings_df.hasEpsCol then
    match astype_float (earnings_df.rows.map (fun r => r.reportedEps)) with
    | Except.error _ => (earnings_df, none)
    | Except.ok floats =>
        let rows1 := List.zipWith
          (fun r q => { r with reportedEps := CellVal.num q }) earnings_df.rows floats
        let quarterly := pct_change floats
        let df1 : EarningsDF :=
          { earnings_df with rows := rows1, quarterlyGrowth := some quarterly }
        let growth_rates := quarterly.filterMap id
        if growth_rates.isEmpty then (df1, none)
        else (df1, some (np_mean growth_rates * 4))
  else (earnings_df, none)

/-- Embeds `calculate_intrinsic_value(eps, growth_rate)`: the Graham-style
formula; on rational inputs the arithmetic cannot raise, so the `except`
branch (absent result) is unreachable and the result is always present. -/
def calculate_intrinsic_value (eps growth_rate : ℚ) : Option ℚ :=
  some (eps * (7 + 2 * growth_rate))

/-- Embeds `save_to_csv(ticker, earnings_data, annualized_growth_rate)`: assigns
the constant `"Annualized Growth Rate"` column to the frame and writes it
to `backtest_data/<ticker>_modelling_data.csv`; the result is the frame as
written together with the file path. -/
def save_to_csv (ticker : String) (earnings_data : EarningsDF)
    (annualized_growth_rate : ℚ) : EarningsDF × String :=
  ({ earnings_data with annualizedGrowthRate := some annualized_growth_rate },
   "backtest_data/" ++ ticker ++ "_modelling_data.csv")

/-! Section: Concrete fixtures used by witnesses and counterexamples -/

/-- A price-history oracle that always responds with no rows. -/
def histNone : HistOracle := fun _ _ _ => Except.ok []

/-- An earnings oracle that always responds with no rows. -/
def earnNone : EarnOracle := fun _ => Except.ok []

/-- A FRED oracle that always responds with an empty series. -/
def fredNone : FredOracle := fun _ _ _ => Except.ok []

/-- A price-history oracle whose one row pays no dividend. -/
def histNoDiv : HistOracle := fun _ _ _ => Except.ok [HistRow.mk 3 10 0]

/-- A price-history oracle whose one row (date 5) pays a dividend of 1. -/
def histOne : HistOracle := fun _ _ _ => Except.ok [HistRow.mk 5 10 1]

/-- An earnings oracle answering one row for every ticker. -/
def earnW : EarnOracle := fun _ => Except.ok [EarnRowP.mk 4 (CellVal.num 2)]

/-- A concrete fetched earnings frame whose reported EPS column is
`[2.0, 2.2, 2.0, 2.4]` in received order. -/
def dfExample : EarningsDF :=
  ⟨true,
   [⟨1, CellVal.num 2, "AAPL"⟩, ⟨2, CellVal.num (11/5), "AAPL"⟩,
    ⟨3, CellVal.num 2, "AAPL"⟩, ⟨4, CellVal.num (12/5), "AAPL"⟩],
   none, none⟩

/-- A one-row earnings frame. -/
def dfOneRow : EarningsDF := ⟨true, [⟨1, CellVal.num 2, "AAPL"⟩], none, none⟩

/-- An earnings frame without a `Reported EPS` column. -/
def dfNoEps : EarningsDF := ⟨false, [⟨1, CellVal.num 2, "AAPL"⟩], none, none⟩

/-- An earnings frame with a non-numeric EPS cell. -/
def dfBadCell : EarningsDF :=
  ⟨true, [⟨1, CellVal.nonNumeric "n/a", "AAPL"⟩, ⟨2, CellVal.num 2, "AAPL"⟩],
   none, none⟩

/-! Section: Supporting lemmas -/

/-- A non-numeric cell anywhere in the column makes `astype(float)` raise. -/
theorem astype_float_error_of_mem {l : List CellVal} {s : String}
    (h : CellVal.nonNumeric s ∈ l) :
    ∃ msg, astype_float l = Except.error msg := by
  induction l with
  | nil => cases h
  | cons c rest ih =>
    cases c with
    | num q =>
      have hr : CellVal.nonNumeric s ∈ rest := by
        rcases List.mem_cons.mp h with h1 | h1
        · simp at h1
        · exact h1
      rcases ih hr with ⟨msg, hmsg⟩
      exact ⟨msg, by simp [astype_float, hmsg]⟩
    | nonNumeric t => exact ⟨_, rfl⟩

/-- Fact: `astype(float)` succeeds on an all-numeric column and is the identity
on its values. -/
theorem astype_float_map_num (qs : List ℚ) :
    astype_float (qs.map CellVal.num) = Except.ok qs := by
  induction qs with
  | nil => rfl
  | cons q rest ih => simp [astype_float, ih]

/-- A successful `astype(float)` preserves the column length. -/
theorem astype_float_ok_length : ∀ (l : List CellVal) (qs : List ℚ),
    astype_float l = Except.ok qs → qs.length = l.length
  | [], qs, h => by
    simp only [astype_float, Except.ok.injEq] at h
    subst h
    rfl
  | CellVal.num q :: rest, qs, h => by
    simp only [astype_float] at h
    cases hr : astype_float rest with
    | ok qs2 =>
      rw [hr] at h
      simp only [Except.ok.injEq] at h
      subst h
      simp [astype_float_ok_length rest qs2 hr]
    | error e =>
      rw [hr] at h
      simp at h
  | CellVal.nonNumeric s :: rest, qs, h => by
    exact absurd h (by simp [astype_float])

/-- Dropping the `none`s of a zip of `some`s yields the plain zip. -/
theorem filterMap_id_zipWith_some {α β γ : Type} (g : α → β → γ) :
    ∀ (l1 : List α) (l2 : List β),
      (List.zipWith (fun a b => some (g a b)) l1 l2).filterMap id
        = List.zipWith g l1 l2
  | [], _ => by simp
  | _ :: _, [] => by simp
  | a :: l1, b :: l2 => by
    simp [filterMap_id_zipWith_some g l1 l2]

/-- Fact: `pct_change` followed by `dropna` is exactly the fractional change of
each consecutive pair in received order, the first (undefined) change
dropped. -/
theorem pct_change_dropna (qs : List ℚ) :
    (pct_change qs).filterMap id
      = List.zipWith (fun prev cur => cur / prev - 1) qs qs.tail := by
  cases qs with
  | nil => rfl
  | cons x xs =>
    simp only [pct_change, List.filterMap_cons, id_eq, List.tail_cons]
    exact filterMap_id_zipWith_some (fun prev cur : ℚ => cur / prev - 1) (x :: xs) xs

/-- With nonzero denominators, `cur / prev - 1` is the fractional change
`(cur - prev) / prev`. -/
theorem zipWith_pct_eq_frac : ∀ (qs : List ℚ),
    (∀ q ∈ qs.dropLast, q ≠ 0) →
    List.zipWith (fun prev cur => cur / prev - 1) qs qs.tail
      = List.zipWith (fun prev cur => (cur - prev) / prev) qs qs.tail
  | [], _ => rfl
  | [a], _ => rfl
  | a :: b :: t, h => by
    have ha : a ≠ 0 := h a (by simp)
    have ht : ∀ q ∈ (b :: t).dropLast, q ≠ 0 := by
      intro q hq
      refine h q ?_
      rw [List.dropLast_cons₂]
      exact List.mem_cons_of_mem a hq
    have hrec := zipWith_pct_eq_frac (b :: t) ht
    simp only [List.tail_cons] at hrec ⊢
    rw [List.zipWith_cons_cons, List.zipWith_cons_cons, hrec]
    congr 1
    rw [sub_div, div_self ha]

/-- Overwriting only the EPS cell of each row preserves the date and
ticker columns. -/
theorem zipWith_eps_update_map : ∀ (rows : List EarnRow) (floats : List ℚ),
    floats.length = rows.length →
    (List.zipWith (fun r q => { r with reportedEps := CellVal.num q }) rows floats).map
        (fun r => (r.date, r.ticker))
      = rows.map (fun r => (r.date, r.ticker))
  | [], [], _ => rfl
  | [], _ :: _, h => by simp at h
  | _ :: _, [], h => by simp at h
  | r :: rows, q :: floats, h => by
    simp only [List.zipWith_cons_cons, List.map_cons, List.cons.injEq]
    exact ⟨trivial, zipWith_eps_update_map rows floats (by simpa using h)⟩

/-- Fact: `pd.concat` either concatenates or raises its `ValueError`. -/
theorem pd_concat_cases {α : Type} (ts : List (List α)) :
    pd_concat ts = Except.ok ts.flatten
    ∨ pd_concat ts = Except.error "No objects to concatenate" := by
  by_cases h : ts.isEmpty <;> simp [pd_concat, h]

/-- A non-empty list of tables concatenates successfully. -/
theorem pd_concat_ok {α : Type} {ts : List (List α)} (h : ts ≠ []) :
    pd_concat ts = Except.ok ts.flatten := by
  simp [pd_concat, h]

/-- If some identifier contributes a non-empty table, the accumulator of
non-empty per-identifier tables is non-empty. -/
theorem filter_nonempty_of_exists {β : Type} (tickers : List String)
    (f : String → List β) (h : ∃ t ∈ tickers, f t ≠ []) :
    (tickers.map f).filter (fun tb => !tb.isEmpty) ≠ [] := by
  rcases h with ⟨t, ht, hne⟩
  have hmem : f t ∈ (tickers.map f).filter (fun tb => !tb.isEmpty) := by
    rw [List.mem_filter]
    exact ⟨List.mem_map_of_mem f ht, by simp [hne]⟩
  exact List.ne_nil_of_mem hmem

/-- The (date, ticker) comparison is transitive. -/
theorem dateTickerLe_trans (a b c : Nat × String) :
    dateTickerLe a b = true → dateTickerLe b c = true → dateTickerLe a c = true := by
  simp only [dateTickerLe, decide_eq_true_eq]
  rintro (h1 | ⟨h1, h1s⟩) (h2 | ⟨h2, h2s⟩)
  · exact Or.inl (h1.trans h2)
  · exact Or.inl (h2 ▸ h1)
  · exact Or.inl (h1 ▸ h2)
  · exact Or.inr ⟨h1.trans h2, h1s.trans h2s⟩

/-- The (date, ticker) comparison is total. -/
theorem dateTickerLe_total (a b : Nat × String) :
    dateTickerLe a b || dateTickerLe b a := by
  simp only [dateTickerLe, Bool.or_eq_true, decide_eq_true_eq]
  rcases Nat.lt_trichotomy a.1 b.1 with h | h | h
  · exact Or.inl (Or.inl h)
  · rcases le_total a.2 b.2 with hs | hs
    · exact Or.inl (Or.inr ⟨h, hs⟩)
    · exact Or.inr (Or.inr ⟨h.symm, hs⟩)
  · exact Or.inr (Or.inl h)

/-- Fact: `sort_values` permutes its input. -/
theorem sort_values_perm {α : Type} (key : α → Nat × String) (l : List α) :
    (sort_values key l).Perm l :=
  List.mergeSort_perm l _

/-- Fact: `sort_values` sorts by date ascending, then ticker ascending. -/
theorem sort_values_pairwise {α : Type} (key : α → Nat × String) (l : List α) :
    (sort_values key l).Pairwise
      (fun x y => (key x).1 < (key y).1
        ∨ ((key x).1 = (key y).1 ∧ (key x).2 ≤ (key y).2)) := by
  have h := List.sorted_mergeSort
    (fun a b c hab hbc => dateTickerLe_trans (key a) (key b) (key c) hab hbc)
    (fun a b => dateTickerLe_total (key a) (key b)) l
  refine h.imp ?_
  intro x y hxy
  simpa [dateTickerLe, decide_eq_true_eq] using hxy

/-- The growth rate of the concrete frame with EPS `[2.0, 2.2, 2.0, 2.4]`:
the mean of `[1/10, -1/11, 1/5]` times 4, i.e. `46/165 ≈ 0.279`. -/
theorem dfExample_growth :
    (calculate_growth_rate dfExample).2 = some (46/165) := by
  simp [calculate_growth_rate, dfExample, astype_float, pct_change, np_mean,
    List.filterMap]
  norm_num

/-- The frame returned by `calculate_growth_rate` on the concrete example
carries a `Quarterly Growth` column. -/
theorem dfExample_mutated :
    (calculate_growth_rate dfExample).1.quarterlyGrowth ≠ none := by
  simp [calculate_growth_rate, dfExample, astype_float, pct_change, List.filterMap]

/-! Section: Claims -/

/-- Claim C5: for an earnings table whose reported-EPS column is a column
of at least two numeric values (with nonzero denominators, excluded here
because a zero previous EPS makes the IEEE quotient infinite, outside the
rational model), the result is present and equals 4 times the arithmetic
mean of the period-over-period fractional changes of consecutive pairs in
received order, the first (undefined) change dropped; in particular on
EPS `[2.0, 2.2, 2.0, 2.4]` the result is `46/165 ≈ 0.279`. -/
theorem claim_C5_growth_rate_formula :
    (∀ (df : EarningsDF) (qs : List ℚ),
      df.hasEpsCol = true →
      df.rows.map (fun r => r.reportedEps) = qs.map CellVal.num →
      2 ≤ qs.length →
      (∀ q ∈ qs.dropLast, q ≠ 0) →
      (calculate_growth_rate df).2
        = some (4 * np_mean
            (List.zipWith (fun prev cur => (cur - prev) / prev) qs qs.tail)))
    ∧ (calculate_growth_rate dfExample).2 = some (46/165) := by
  constructor
  · intro df qs hc hmap hlen hnz
    obtain ⟨a, b, t, rfl⟩ : ∃ a b t, qs = a :: b :: t := by
      rcases qs with _ | ⟨a, _ | ⟨b, t⟩⟩
      · simp at hlen
      · simp at hlen
      · exact ⟨a, b, t, rfl⟩
    simp only [calculate_growth_rate, hc, if_true, hmap, astype_float_map_num]
    rw [pct_change_dropna, zipWith_pct_eq_frac _ hnz]
    simp [List.zipWith_cons_cons, List.tail_cons, mul_comm]
  · exact dfExample_growth

/-- Claim C5 witness: the general formula applied to the concrete frame
with EPS `[2.0, 2.2, 2.0, 2.4]`. -/
theorem claim_C5_witness :
    dfExample.hasEpsCol = true
    ∧ dfExample.rows.map (fun r => r.reportedEps)
        = ([2, 11/5, 2, 12/5] : List ℚ).map CellVal.num
    ∧ 2 ≤ ([2, 11/5, 2, 12/5] : List ℚ).length
    ∧ (∀ q ∈ ([2, 11/5, 2, 12/5] : List ℚ).dropLast, q ≠ 0)
    ∧ (calculate_growth_rate dfExample).2
        = some (4 * np_mean (List.zipWith (fun prev cur => (cur - prev) / prev)
            ([2, 11/5, 2, 12/5] : List ℚ) ([2, 11/5, 2, 12/5] : List ℚ).tail)) :=
  ⟨rfl, rfl, by decide,
   by
    intro q hq
    simp [List.dropLast] at hq
    rcases hq with rfl | rfl | rfl <;> norm_num,
   claim_C5_growth_rate_formula.1 dfExample ([2, 11/5, 2, 12/5] : List ℚ)
     rfl rfl (by decide)
     (by
      intro q hq
      simp [List.dropLast] at hq
      rcases hq with rfl | rfl | rfl <;> norm_num)⟩

/-- Claim C8 counterexample: `calculate_growth_rate` does not leave its
argument unchanged, and the frame passed on to the modelling file carries
a `Quarterly Growth` column beyond the added `Annualized Growth Rate`
column. -/
theorem claim_C8_counterexample :
    (calculate_growth_rate dfExample).1 ≠ dfExample
    ∧ (save_to_csv "AAPL" (calculate_growth_rate dfExample).1
        (46/165)).1.quarterlyGrowth ≠ none := by
  refine ⟨fun hEq => ?_, ?_⟩
  · exact dfExample_mutated (by rw [hEq]; rfl)
  · simpa [save_to_csv] using dfExample_mutated

/-- Claim C8 (amended): `calculate_growth_rate` mutates its argument — it
float-coerces the reported-EPS column and adds a `Quarterly Growth`
column — so whenever it returns a growth rate, the frame written to the
per-identifier modelling file keeps the fetched rows' dates and tickers
(same row count, same order) but carries the coerced EPS column, the
`Quarterly Growth` column, and the added `Annualized Growth Rate`
column. -/
theorem claim_C8_amended (df : EarningsDF) (ticker : String) (g : ℚ)
    (h : (calculate_growth_rate df).2 = some g) :
    (save_to_csv ticker (calculate_growth_rate df).1 g).1.hasEpsCol = df.hasEpsCol
    ∧ (save_to_csv ticker (calculate_growth_rate df).1 g).1.rows.length
        = df.rows.length
    ∧ (save_to_csv ticker (calculate_growth_rate df).1 g).1.rows.map
        (fun r => (r.date, r.ticker)) = df.rows.map (fun r => (r.date, r.ticker))
    ∧ (save_to_csv ticker (calculate_growth_rate df).1 g).1.quarterlyGrowth ≠ none
    ∧ (save_to_csv ticker (calculate_growth_rate df).1 g).1.annualizedGrowthRate
        = some g := by
  by_cases hc : df.hasEpsCol
  · cases hast : astype_float (df.rows.map (fun r => r.reportedEps)) with
    | error e => simp [calculate_growth_rate, hc, hast] at h
    | ok floats =>
      have hlen : floats.length = df.rows.length := by
        have h2 := astype_float_ok_length _ _ hast
        simpa using h2
      have h1 : (calculate_growth_rate df).1
          = { df with
              rows := List.zipWith (fun r q => { r with reportedEps := CellVal.num q })
                df.rows floats,
              quarterlyGrowth := some (pct_change floats) } := by
        simp only [calculate_growth_rate, hc, if_true, hast]
        by_cases hg : ((pct_change floats).filterMap id).isEmpty <;> simp [hg]
      refine ⟨?_, ?_, ?_, ?_, ?_⟩ <;>
        simp [save_to_csv, h1, List.length_zipWith, hlen,
          zipWith_eps_update_map df.rows floats hlen]
  · simp [calculate_growth_rate, hc] at h

/-- Claim C8 witness: the amended claim at the concrete frame. -/
theorem claim_C8_witness :
    (calculate_growth_rate dfExample).2 = some (46/165)
    ∧ (save_to_csv "AAPL" (calculate_growth_rate dfExample).1
        (46/165)).1.annualizedGrowthRate = some (46/165) :=
  ⟨dfExample_growth,
   (claim_C8_amended dfExample "AAPL" (46/165) dfExample_growth).2.2.2.2⟩

/-- Claim C1: for every identifier and every failure mode — a raised
exception of any message, covering network errors, parsing errors and
unknown identifiers alike — each of the three provider adapters returns
empty table(s)/series together with the logged identifier-bearing error
message; the adapters' total result types mean they never raise to their
callers. -/
theorem claim_C1_adapters_fail_safe (ticker series_id : String)
    (start_date end_date : Nat) (e : String) :
    fetch_yahoo_finance_data (fun _ _ _ => Except.error e) ticker start_date end_date
      = (([], []), ["Error fetching data for " ++ ticker ++ ": " ++ e])
    ∧ fetch_yahoo_earnings_data (fun _ => Except.error e) ticker
      = (emptyEarningsDF, ["Error fetching earnings data for " ++ ticker ++ ": " ++ e])
    ∧ fetch_fred_data (fun _ _ _ => Except.error e) series_id start_date end_date
      = ([], ["Error fetching FRED data for series_id " ++ series_id ++ ": " ++ e]) :=
  ⟨rfl, rfl, rfl⟩

/-- Claim C3 counterexample: with a failed identifier-list read (hence an
empty identifier list) the backtest pipeline does not complete — the
uncaught `pd.concat` failure propagates out of the run, contradicting the
claim that the run completes without raising. -/
theorem claim_C3_counterexample :
    (get_backtest_data
      (Except.error "FileNotFoundError: sp500_ticker_periods_tested.csv")
      histNone earnNone fredNone 20251012).1
    = Except.error "No objects to concatenate" := rfl

/-- Claim C3 (amended): when the identifier list is empty, the backtest
pipeline run raises the propagating zero-table concatenation failure from
the aggregator, and produces no output files (the error escapes before the
output directory or any file is written). -/
theorem claim_C3_amended (csv : Except String CsvFile) (hist : HistOracle)
    (earn : EarnOracle) (fredO : FredOracle) (today : Nat)
    (h : (get_tickers_list csv).1 = []) :
    (get_backtest_data csv hist earn fredO today).1
      = Except.error "No objects to concatenate" := by
  simp [get_backtest_data, fetch_and_merge_data, pd_concat, h]

/-- Claim C3 witness: the amended claim at a concrete failed read. -/
theorem claim_C3_witness :
    (get_tickers_list (Except.error "no such file")).1 = []
    ∧ (get_backtest_data (Except.error "no such file")
        histNone earnNone fredNone 20240101).1
      = Except.error "No objects to concatenate" :=
  ⟨rfl, claim_C3_amended _ histNone earnNone fredNone 20240101 rfl⟩

/-- Claim C6: on an empty earnings table, a one-row earnings table, a
table without the reported-EPS column, and a table with a non-numeric
EPS cell, `calculate_growth_rate` returns `None`; its total result type
records that it never raises past the function boundary. -/
theorem claim_C6_growth_rate_degenerate :
    (∀ df : EarningsDF, df.rows = [] → (calculate_growth_rate df).2 = none)
    ∧ (∀ (df : EarningsDF) (r : EarnRow), df.rows = [r] →
        (calculate_growth_rate df).2 = none)
    ∧ (∀ df : EarningsDF, df.hasEpsCol = false →
        (calculate_growth_rate df).2 = none)
    ∧ (∀ (df : EarningsDF) (s : String),
        CellVal.nonNumeric s ∈ df.rows.map (fun r => r.reportedEps) →
        (calculate_growth_rate df).2 = none) := by
  refine ⟨?_, ?_, ?_, ?_⟩
  · intro df h
    by_cases hc : df.hasEpsCol
    · simp [calculate_growth_rate, hc, h, astype_float, pct_change]
    · simp [calculate_growth_rate, hc]
  · intro df r h
    by_cases hc : df.hasEpsCol
    · cases hr : r.reportedEps with
      | num q => simp [calculate_growth_rate, hc, h, hr, astype_float, pct_change]
      | nonNumeric s => simp [calculate_growth_rate, hc, h, hr, astype_float]
    · simp [calculate_growth_rate, hc]
  · intro df h
    simp [calculate_growth_rate, h]
  · intro df s h
    by_cases hc : df.hasEpsCol
    · rcases astype_float_error_of_mem h with ⟨msg, hmsg⟩
      simp [calculate_growth_rate, hc, hmsg]
    · simp [calculate_growth_rate, hc]

/-- Claim C6 witness: the four degenerate cases at concrete frames. -/
theorem claim_C6_witness :
    (calculate_growth_rate emptyEarningsDF).2 = none
    ∧ (calculate_growth_rate dfOneRow).2 = none
    ∧ (calculate_growth_rate dfNoEps).2 = none
    ∧ (calculate_growth_rate dfBadCell).2 = none :=
  ⟨claim_C6_growth_rate_degenerate.1 _ rfl,
   claim_C6_growth_rate_degenerate.2.1 _ ⟨1, CellVal.num 2, "AAPL"⟩ rfl,
   claim_C6_growth_rate_degenerate.2.2.1 _ rfl,
   claim_C6_growth_rate_degenerate.2.2.2 _ "n/a" (by simp [dfBadCell])⟩

/-- Claim C7: for every numeric eps and growth rate, the intrinsic value
is present and equals `eps * (7 + 2 * growth_rate)`; in particular
`intrinsic_value(2.0, 0.05) = 14.2`.  On rational inputs the arithmetic
cannot raise, so the absent branch is never taken. -/
theorem claim_C7_intrinsic_value :
    (∀ eps growth_rate : ℚ,
      calculate_intrinsic_value eps growth_rate = some (eps * (7 + 2 * growth_rate)))
    ∧ calculate_intrinsic_value 2 (1/20) = some (71/5) :=
  ⟨fun _ _ => rfl, by norm_num [calculate_intrinsic_value]⟩

/-- Claim C10: with an identifier column of `n` rows the Identifier Source
returns the first `min n 5` entries in file order; on a failed read or a
missing column it returns the empty sequence and records a diagnostic. -/
theorem claim_C10_ticker_source :
    (∀ cols : List String,
      get_tickers_list (Except.ok ⟨some cols⟩) = (cols.take 5, [])
      ∧ (cols.take 5).length = min cols.length 5)
    ∧ (∀ e : String, get_tickers_list (Except.error e)
        = ([], ["Error reading tickers list: " ++ e]))
    ∧ get_tickers_list (Except.ok ⟨none⟩)
        = ([], ["Error reading tickers list: KeyError: Ticker"]) :=
  ⟨fun cols => ⟨rfl, by simp [List.length_take, Nat.min_comm]⟩, fun _ => rfl, rfl⟩

/-- Claim C2: whenever at least one per-identifier table of each of the
three kinds is non-empty (the all-empty kind case is claim C4), the
aggregator returns three merged tables; each is a permutation of the
concatenation, in identifier order, of all non-empty per-identifier
tables of its kind, sorted by (date ascending, identifier ascending),
positionally indexed (the reset row index). -/
theorem claim_C2_aggregator_merges_sorted (hist : HistOracle) (earn : EarnOracle)
    (tickers : List String) (start_date end_date : Nat)
    (hs : ∃ t ∈ tickers, ((fetch_yahoo_finance_data hist t start_date end_date).1).1 ≠ [])
    (hd : ∃ t ∈ tickers, ((fetch_yahoo_finance_data hist t start_date end_date).1).2 ≠ [])
    (he : ∃ t ∈ tickers, (fetch_yahoo_earnings_data earn t).1.rows ≠ []) :
    ∃ s d er,
      (fetch_and_merge_data hist earn tickers start_date end_date).1
        = Except.ok (s, d, ⟨true, er, none, none⟩)
      ∧ s.Perm (((tickers.map
          (fun t => ((fetch_yahoo_finance_data hist t start_date end_date).1).1)).filter
            (fun tb => !tb.isEmpty)).flatten)
      ∧ s.Pairwise (fun a b => a.date < b.date ∨ (a.date = b.date ∧ a.ticker ≤ b.ticker))
      ∧ d.Perm (((tickers.map
          (fun t => ((fetch_yahoo_finance_data hist t start_date end_date).1).2)).filter
            (fun tb => !tb.isEmpty)).flatten)
      ∧ d.Pairwise (fun a b => a.date < b.date ∨ (a.date = b.date ∧ a.ticker ≤ b.ticker))
      ∧ er.Perm (((tickers.map
          (fun t => (fetch_yahoo_earnings_data earn t).1.rows)).filter
            (fun tb => !tb.isEmpty)).flatten)
      ∧ er.Pairwise (fun a b => a.date < b.date ∨ (a.date = b.date ∧ a.ticker ≤ b.ticker)) := by
  have h1 := pd_concat_ok (filter_nonempty_of_exists tickers _ hs)
  have h2 := pd_concat_ok (filter_nonempty_of_exists tickers _ hd)
  have h3 := pd_concat_ok (filter_nonempty_of_exists tickers _ he)
  refine ⟨_, _, _, ?_,
    sort_values_perm (fun r : PriceRow => (r.date, r.ticker)) _,
    sort_values_pairwise (fun r : PriceRow => (r.date, r.ticker)) _,
    sort_values_perm (fun r : DivRow => (r.date, r.ticker)) _,
    sort_values_pairwise (fun r : DivRow => (r.date, r.ticker)) _,
    sort_values_perm (fun r : EarnRow => (r.date, r.ticker)) _,
    sort_values_pairwise (fun r : EarnRow => (r.date, r.ticker)) _⟩
  simp only [fetch_and_merge_data, h1, h2, h3]

/-- Claim C2 witness: two identifiers with one price row, one dividend
and one earnings row each. -/
theorem claim_C2_witness :
    (∃ t ∈ (["B", "A"] : List String),
      ((fetch_yahoo_finance_data histOne t 1 9).1).1 ≠ [])
    ∧ (∃ t ∈ (["B", "A"] : List String),
      ((fetch_yahoo_finance_data histOne t 1 9).1).2 ≠ [])
    ∧ (∃ t ∈ (["B", "A"] : List String),
      (fetch_yahoo_earnings_data earnW t).1.rows ≠ [])
    ∧ (∃ s d er,
      (fetch_and_merge_data histOne earnW ["B", "A"] 1 9).1
        = Except.ok (s, d, ⟨true, er, none, none⟩)
      ∧ s.Perm (((["B", "A"].map
          (fun t => ((fetch_yahoo_finance_data histOne t 1 9).1).1)).filter
            (fun tb => !tb.isEmpty)).flatten)
      ∧ s.Pairwise (fun a b => a.date < b.date ∨ (a.date = b.date ∧ a.ticker ≤ b.ticker))
      ∧ d.Perm (((["B", "A"].map
          (fun t => ((fetch_yahoo_finance_data histOne t 1 9).1).2)).filter
            (fun tb => !tb.isEmpty)).flatten)
      ∧ d.Pairwise (fun a b => a.date < b.date ∨ (a.date = b.date ∧ a.ticker ≤ b.ticker))
      ∧ er.Perm (((["B", "A"].map
          (fun t => (fetch_yahoo_earnings_data earnW t).1.rows)).filter
            (fun tb => !tb.isEmpty)).flatten)
      ∧ er.Pairwise (fun a b => a.date < b.date ∨ (a.date = b.date ∧ a.ticker ≤ b.ticker))) := by
  have hs : ∃ t ∈ (["B", "A"] : List String),
      ((fetch_yahoo_finance_data histOne t 1 9).1).1 ≠ [] :=
    ⟨"B", by simp, by simp [histOne, fetch_yahoo_finance_data]⟩
  have hd : ∃ t ∈ (["B", "A"] : List String),
      ((fetch_yahoo_finance_data histOne t 1 9).1).2 ≠ [] :=
    ⟨"B", by simp, by simp [histOne, fetch_yahoo_finance_data]⟩
  have he : ∃ t ∈ (["B", "A"] : List String),
      (fetch_yahoo_earnings_data earnW t).1.rows ≠ [] :=
    ⟨"B", by simp, by simp [earnW, fetch_yahoo_earnings_data]⟩
  exact ⟨hs, hd, he,
    claim_C2_aggregator_merges_sorted histOne earnW ["B", "A"] 1 9 hs hd he⟩

/-- Claim C4: when every per-identifier input for one of the three tables
is empty — here the dividend table — the zero-table concatenation fails
and the failure propagates to the caller (the `Except.error` result)
rather than yielding an empty merged table. -/
theorem claim_C4_zero_table_concat_fails (hist : HistOracle) (earn : EarnOracle)
    (tickers : List String) (start_date end_date : Nat)
    (h : ∀ t ∈ tickers, ((fetch_yahoo_finance_data hist t start_date end_date).1).2 = []) :
    (fetch_and_merge_data hist earn tickers start_date end_date).1
      = Except.error "No objects to concatenate" := by
  have hdiv : (tickers.map
      (fun t => ((fetch_yahoo_finance_data hist t start_date end_date).1).2)).filter
        (fun tb => !tb.isEmpty) = [] := by
    rw [List.filter_eq_nil_iff]
    intro tb htb
    rcases List.mem_map.mp htb with ⟨t, ht, rfl⟩
    simp [h t ht]
  have hd0 : pd_concat ((tickers.map
      (fun t => ((fetch_yahoo_finance_data hist t start_date end_date).1).2)).filter
        (fun tb => !tb.isEmpty)) = Except.error "No objects to concatenate" := by
    rw [hdiv]
    rfl
  rcases pd_concat_cases ((tickers.map
      (fun t => ((fetch_yahoo_finance_data hist t start_date end_date).1).1)).filter
        (fun tb => !tb.isEmpty)) with hst | hst <;>
  rcases pd_concat_cases ((tickers.map
      (fun t => (fetch_yahoo_earnings_data earn t).1.rows)).filter
        (fun tb => !tb.isEmpty)) with hea | hea <;>
    simp only [fetch_and_merge_data, hst, hd0, hea]

/-- Claim C4 witness: one identifier whose single price row pays no
dividend, so every per-identifier dividend table is empty. -/
theorem claim_C4_witness :
    (∀ t ∈ (["AAPL"] : List String),
      ((fetch_yahoo_finance_data histNoDiv t 1 9).1).2 = [])
    ∧ (fetch_and_merge_data histNoDiv earnNone ["AAPL"] 1 9).1
        = Except.error "No objects to concatenate" := by
  have hyp : ∀ t ∈ (["AAPL"] : List String),
      ((fetch_yahoo_finance_data histNoDiv t 1 9).1).2 = [] := by
    intro t ht
    simp [histNoDiv, fetch_yahoo_finance_data]
  exact ⟨hyp, claim_C4_zero_table_concat_fails histNoDiv earnNone ["AAPL"] 1 9 hyp⟩

/-- Claim C9: the price-history fetch attaches the identifier to each
dividend row it derives from the history returned for the requested
closed interval; hence when the provider honours the interval — every
history row's date lies in `[start_date, end_date]`, the provider contract
the spec states — every row of the returned dividend table has its date
in the requested closed interval. -/
theorem claim_C9_dividends_in_range (hist : HistOracle) (ticker : String)
    (start_date end_date : Nat)
    (hProv : ∀ rows, hist ticker start_date end_date = Except.ok rows →
      ∀ r ∈ rows, start_date ≤ r.date ∧ r.date ≤ end_date) :
    ∀ dr ∈ ((fetch_yahoo_finance_data hist ticker start_date end_date).1).2,
      start_date ≤ dr.date ∧ dr.date ≤ end_date := by
  intro dr hdr
  cases hh : hist ticker start_date end_date with
  | error e => simp [fetch_yahoo_finance_data, hh] at hdr
  | ok rows =>
    simp only [fetch_yahoo_finance_data, hh, List.mem_map, List.mem_filter] at hdr
    obtain ⟨r, ⟨hr, _⟩, rfl⟩ := hdr
    exact hProv rows hh r hr

/-- Claim C9 witness: a provider row at date 5 inside `[1, 10]` paying a
dividend of 1. -/
theorem claim_C9_witness :
    ((fetch_yahoo_finance_data histOne "AAPL" 1 10).1).2
        = [DivRow.mk 5 1 "AAPL"]
    ∧ (1 ≤ (DivRow.mk 5 1 "AAPL").date ∧ (DivRow.mk 5 1 "AAPL").date ≤ 10) := by
  have hProv : ∀ rows, histOne "AAPL" 1 10 = Except.ok rows →
      ∀ r ∈ rows, 1 ≤ r.date ∧ r.date ≤ 10 := by
    intro rows hr
    simp only [histOne, Except.ok.injEq] at hr
    subst hr
    intro r hrm
    simp only [List.mem_singleton] at hrm
    subst hrm
    exact ⟨by norm_num, by norm_num⟩
  have hmem : DivRow.mk 5 1 "AAPL"
      ∈ ((fetch_yahoo_finance_data histOne "AAPL" 1 10).1).2 := by
    simp [fetch_yahoo_finance_data, histOne]
  exact ⟨by simp [fetch_yahoo_finance_data, histOne],
    claim_C9_dividends_in_range histOne "AAPL" 1 10 hProv _ hmem⟩

end SP500
